import Mathlib

/-
Verification of the daily market briefing generator (src/main.py).

The program has two components:
  * `fetch_index_summary` — given an index name, a data-source result for its
    symbol, and a run date, resolves the latest completed-session close and
    day-over-day change into an `IndexSummary`.
  * `render_html` — a pure templating function assembling the summaries into a
    self-contained HTML document.

Modelling choices:
  * Calendar dates are a `Date` structure (year, month, day) compared
    lexicographically; the data source returns date-indexed rows, so only
    comparison and formatting matter.
  * Python floats are modelled as exact rationals `ℚ`.  Every claim under
    study concerns control flow, field presence, or the sign of the computed
    change, all of which agree between IEEE doubles and exact rationals
    (each IEEE operation used — subtraction, division, scaling by 100 —
    preserves the exact sign).  Decimal display formatting is modelled as
    exact rational rounding.
  * The external provider call `fdr.DataReader(symbol, start, end)` is opaque
    to the program; its outcome is modelled by `FetchResult`: either the call
    raises (any provider exception) or it yields a table, with a flag for the
    presence of the "Close" column and rows of (date, optional close).
  * Python's `float / float` raises `ZeroDivisionError` when the divisor is
    zero; `str` of that exception is "float division by zero".  The embedding
    makes that control path explicit: the zero-divisor branch lands in the
    same catch-all summary the blanket `except Exception` handler produces.
-/

namespace DailyBriefing

/-- Calendar date, as extracted from the pandas datetime index
(`close_series.index.date`). -/
structure Date where
  year : Nat
  month : Nat
  day : Nat
deriving DecidableEq, Repr

/-- Date comparison, year then month then day — Python `date < date`. -/
def Date.ltb (a b : Date) : Bool :=
  a.year < b.year ||
    (a.year = b.year && (a.month < b.month ||
      (a.month = b.month && a.day < b.day)))

instance : LT Date := ⟨fun a b => Date.ltb a b = true⟩

instance (a b : Date) : Decidable (a < b) :=
  inferInstanceAs (Decidable (_ = true))

/-- Zero-pad a number to two digits (the `%m`/`%d` fields of `strftime`). -/
def pad2 (n : Nat) : String :=
  if n < 10 then "0" ++ toString n else toString n

/-- Zero-pad a number to four digits (the `%Y` field of `strftime`). -/
def pad4 (n : Nat) : String :=
  if n < 10 then "000" ++ toString n
  else if n < 100 then "00" ++ toString n
  else if n < 1000 then "0" ++ toString n
  else toString n

/-- `strftime("%Y-%m-%d")`. -/
def Date.format (d : Date) : String :=
  pad4 d.year ++ "-" ++ pad2 d.month ++ "-" ++ pad2 d.day

/-- The resolved state of one market index for one run (dataclass
`IndexSummary` in src/main.py). -/
structure IndexSummary where
  name : String
  close : Option ℚ
  change_pct : Option ℚ
  arrow : String
  color_class : String
  base_date : Option String
  error : Option String := none
deriving DecidableEq, Repr

/-- Outcome of the opaque provider call `fdr.DataReader(symbol, start, end)`:
either the call raises with message `msg` (any provider exception — network,
unknown symbol, parse failure), or it returns a date-indexed table.
`hasClose` models `"Close" in df.columns`; each row carries an optional close
value (`none` models a NaN dropped by `dropna()`). -/
inductive FetchResult where
  | raises (msg : String)
  | table (hasClose : Bool) (rows : List (Date × Option ℚ))

/-- `df["Close"].dropna()` — keep rows with a present close value, in order. -/
def dropna (rows : List (Date × Option ℚ)) : List (Date × ℚ) :=
  rows.filterMap (fun r => r.2.map (fun c => (r.1, c)))

/-- `close_series[close_series.index.date < run_date]` — keep rows dated
strictly before the run date. -/
def filterBefore (run_date : Date) (rows : List (Date × ℚ)) : List (Date × ℚ) :=
  rows.filter (fun r => Date.ltb r.1 run_date)

/-- `series.tail(2)` — the last two rows (all rows when fewer than two). -/
def tail2 {α : Type} (l : List α) : List α :=
  l.drop (l.length - 2)

/-- The row-selection pipeline of `fetch_index_summary`: drop missing closes,
filter to dates strictly before the run date, take the last two rows. -/
def selectLastTwo (run_date : Date) (rows : List (Date × Option ℚ)) :
    List (Date × ℚ) :=
  tail2 (filterBefore run_date (dropna rows))

/-- The summary every failure path produces: value fields absent, arrow "-",
color class "na", `error` set to the diagnostic string. -/
def naSummary (name msg : String) : IndexSummary :=
  { name := name, close := none, change_pct := none, arrow := "-",
    color_class := "na", base_date := none, error := some msg }

/-- `fetch_index_summary(name, symbol, run_date)` from src/main.py, with the
provider call's outcome passed in as `source`.  Mirrors the source: the
missing-column check, `dropna`, the strict date filter, `tail(2)`, the
fewer-than-two check, the change computation and sign classification, and the
blanket `except Exception` handler (reached by a raising provider, and by the
`ZeroDivisionError` that Python's float division raises when the previous
close is zero). -/
def fetch_index_summary (name : String) (source : FetchResult)
    (run_date : Date) : IndexSummary :=
  match source with
  | .raises msg => naSummary name msg
  | .table hasClose rows =>
    if hasClose = false then naSummary name "not-enough-data"
    else
      match selectLastTwo run_date rows with
      | [(_, prev_close), (d1, close)] =>
        if prev_close = 0 then naSummary name "float division by zero"
        else
          let change_pct := (close - prev_close) / prev_close * 100
          let ac : String × String :=
            if change_pct > 0 then ("▲", "up")
            else if change_pct < 0 then ("▼", "down")
            else ("-", "flat")
          { name := name, close := some close, change_pct := some change_pct,
            arrow := ac.1, color_class := ac.2,
            base_date := some (Date.format d1), error := none }
      | _ => naSummary name "not-enough-close-values"

/-- Python truthiness of an optional string: `None` and `""` are falsy. -/
def truthy (s : Option String) : Bool :=
  match s with
  | some v => v != ""
  | none => false

/-- The two-decimal rounding underlying Python's `.2f` float formatting,
modelled as exact rational rounding to a whole number of hundredths. -/
def cents (v : ℚ) : ℤ := round (v * 100)

/-- Insert thousands separators into a digit list given least-significant
digit first. -/
def commaRev : List Char → List Char
  | a :: b :: c :: d :: rest => a :: b :: c :: ',' :: commaRev (d :: rest)
  | l => l

/-- Thousands-grouped decimal rendering of a natural number (the `,` flag of
Python's format spec). -/
def groupThousands (n : Nat) : String :=
  String.mk (commaRev (toString n).data.reverse).reverse

/-- `f"{value:,.2f}"` on the modelled rational. -/
def format_comma_2f (v : ℚ) : String :=
  let n := cents v
  (if n < 0 then "-" else "") ++ groupThousands (n.natAbs / 100) ++ "." ++
    pad2 (n.natAbs % 100)

/-- `f"{value:.2f}"` on the modelled rational. -/
def format_2f (v : ℚ) : String :=
  let n := cents v
  (if n < 0 then "-" else "") ++ toString (n.natAbs / 100) ++ "." ++
    pad2 (n.natAbs % 100)

/-- `_format_close` from src/main.py. -/
def _format_close (value : Option ℚ) : String :=
  match value with
  | none => "N/A"
  | some v => format_comma_2f v

/-- `_format_pct` from src/main.py (`f"{abs(value):.2f}%"`). -/
def _format_pct (value : Option ℚ) : String :=
  match value with
  | none => "N/A"
  | some v => format_2f |v| ++ "%"

/-- The successive slices `items[i : i + columns]` taken by the
`range(0, len(items), columns)` loop of `_render_table_rows` (`columns > 0`
at every call site: both sections use 2). -/
def chunks {α : Type} (columns : Nat) : List α → List (List α)
  | [] => []
  | x :: xs => (x :: xs).take columns :: chunks columns (xs.drop (columns - 1))
termination_by l => l.length
decreasing_by simp; omega

/-- `_render_table_rows` from src/main.py: for each slice of `columns` items,
a header row of names and a value row of formatted close/arrow/percentage,
joined with newlines. -/
def _render_table_rows (items : List IndexSummary) (columns : Nat) : String :=
  let rows :=
    (chunks columns items).foldr
      (fun row_items acc =>
        let header_row :=
          String.join (row_items.map (fun item => "<th>" ++ item.name ++ "</th>"))
        let value_row :=
          String.join (row_items.map (fun item =>
            "<td>" ++ "<span class=\"" ++ item.color_class ++ "\">" ++
              _format_close item.close ++ " " ++ item.arrow ++ " " ++
              _format_pct item.change_pct ++ "</span>" ++ "</td>"))
        ("<tr>" ++ header_row ++ "</tr>") :: ("<tr>" ++ value_row ++ "</tr>") :: acc)
      []
  String.intercalate "\n" rows

/-- `_render_section` from src/main.py. -/
def _render_section (title : String) (items : List IndexSummary)
    (columns : Nat) : String :=
  "<h2>" ++ title ++ "</h2>" ++ "\n" ++ "<table>" ++
    _render_table_rows items columns ++ "</table>"

/-- `[item.base_date for item in all_items if item.base_date]` — Python
truthiness excludes both `None` and the empty string. -/
def base_date_list (all_items : List IndexSummary) : List String :=
  all_items.filterMap
    (fun item => if truthy item.base_date then item.base_date else none)

/-- `max(base_dates) if base_dates else "확인 불가"` — the as-of trading date
shown in the report footer.  Python `max` on strings is the lexicographic
maximum, modelled by `List.max?` over Lean's lexicographic `String` order. -/
def base_date_text (all_items : List IndexSummary) : String :=
  match (base_date_list all_items).max? with
  | some m => m
  | none => "확인 불가"

/-- `requested_target_date if requested_target_date else "자동(오늘 실행)"`. -/
def request_date_text (requested_target_date : Option String) : String :=
  if truthy requested_target_date then requested_target_date.getD ""
  else "자동(오늘 실행)"

/-- The consolidated warning paragraph of `render_html` (the empty string
when no item carries an error). -/
def warning_text (all_items : List IndexSummary) : String :=
  let failed_items := all_items.filter (fun item => truthy item.error)
  if failed_items.isEmpty then ""
  else
    "<p class=\"warning\">일부 데이터를 불러오지 못했습니다 (" ++
      String.intercalate ", "
        (failed_items.map (fun item => item.name ++ ": " ++ item.error.getD "")) ++
      ").</p>"

/-- The template literal of `render_html` after the leading
"<!doctype html>" line, up to the `{domestic_html}` interpolation point
(doubled braces of the Python f-string render as single braces). -/
def htmlChunk1Body : String :=
  "<html lang=\"ko\">\n" ++
  "  <head>\n" ++
  "    <meta charset=\"utf-8\" />\n" ++
  "    <meta name=\"viewport\" content=\"width=device-width, initial-scale=1\" />\n" ++
  "    <title>전일 시장 요약</title>\n" ++
  "    <style>\n" ++
  "      body \x7b\n" ++
  "        font-family: -apple-system, BlinkMacSystemFont, \"Segoe UI\", Roboto, \"Noto Sans KR\", sans-serif;\n" ++
  "        margin: 24px;\n" ++
  "        color: #222;\n" ++
  "      \x7d\n" ++
  "      h1 \x7b margin: 0 0 24px; \x7d\n" ++
  "      h2 \x7b margin: 24px 0 8px; \x7d\n" ++
  "      table \x7b\n" ++
  "        width: 100%;\n" ++
  "        max-width: 720px;\n" ++
  "        border-collapse: collapse;\n" ++
  "        border-top: 1px solid #666;\n" ++
  "        margin-bottom: 24px;\n" ++
  "      \x7d\n" ++
  "      th, td \x7b\n" ++
  "        width: 50%;\n" ++
  "        border: 1px solid #d6d6d6;\n" ++
  "        text-align: center;\n" ++
  "        padding: 14px 10px;\n" ++
  "        font-size: 30px;\n" ++
  "      \x7d\n" ++
  "      th \x7b font-weight: 700; background: #fafafa; \x7d\n" ++
  "      .up \x7b color: #f44336; \x7d\n" ++
  "      .down \x7b color: #1976d2; \x7d\n" ++
  "      .flat \x7b color: #444; \x7d\n" ++
  "      .na \x7b color: #888; \x7d\n" ++
  "      .meta \x7b color: #666; font-size: 20px; margin: 6px 0; \x7d\n" ++
  "      .warning \x7b color: #b26a00; font-size: 18px; max-width: 720px; \x7d\n" ++
  "    </style>\n" ++
  "  </head>\n" ++
  "  <body>\n" ++
  "    <h1>전일 시장 요약</h1>\n" ++
  "    "

/-- The template literal of `render_html` up to the `{domestic_html}`
interpolation point. -/
def htmlChunk1 : String :=
  "<!doctype html>\n" ++ htmlChunk1Body

/-- Between the `{domestic_html}` and `{overseas_html}` interpolations. -/
def htmlChunk2 : String := "\n    "

/-- Between `{overseas_html}` and `{request_date_text}`. -/
def htmlChunk3 : String := "\n    <p class=\"meta\">요청 실행일: "

/-- Between `{request_date_text}` and `{base_date_text}`. -/
def htmlChunk4 : String := "</p>\n    <p class=\"meta\">기준 거래일: "

/-- Between `{base_date_text}` and `{generated_at}`. -/
def htmlChunk5 : String := "</p>\n    <p class=\"meta\">생성 시각: "

/-- Between `{generated_at}` and `{warning}`. -/
def htmlChunk6 : String := "</p>\n    "

/-- After the `{warning}` interpolation, to the end of the document. -/
def htmlChunk7 : String := "\n  </body>\n</html>\n"

/-- `render_html` from src/main.py: a pure function of the two item lists,
the generation timestamp and the optional requested target date. -/
def render_html (domestic_items overseas_items : List IndexSummary)
    (generated_at : String) (requested_target_date : Option String) : String :=
  let all_items := domestic_items ++ overseas_items
  let domestic_html := _render_section "국내" domestic_items 2
  let overseas_html := _render_section "해외" overseas_items 2
  htmlChunk1 ++ domestic_html ++ htmlChunk2 ++ overseas_html ++ htmlChunk3 ++
    request_date_text requested_target_date ++ htmlChunk4 ++
    base_date_text all_items ++ htmlChunk5 ++ generated_at ++ htmlChunk6 ++
    warning_text all_items ++ htmlChunk7

/-- A concrete successfully-resolved summary (base date 2024-03-14), used to
exercise the renderer theorems. -/
def sampleUp : IndexSummary :=
  { name := "코스피", close := some 2500, change_pct := some 1, arrow := "▲",
    color_class := "up", base_date := some "2024-03-14", error := none }

/-- A concrete successfully-resolved summary with an earlier base date
(2024-03-13). -/
def sampleDown : IndexSummary :=
  { name := "다우 산업", close := some 38700, change_pct := some (-1),
    arrow := "▼", color_class := "down", base_date := some "2024-03-13",
    error := none }

/- Sanity checks of the embedding on concrete runs. -/

example :
    fetch_index_summary "KOSPI"
      (.table true [(⟨2024, 3, 13⟩, some 2480), (⟨2024, 3, 14⟩, some 2500),
                    (⟨2024, 3, 15⟩, some 2600)])
      ⟨2024, 3, 15⟩ =
    { name := "KOSPI", close := some 2500,
      change_pct := some ((2500 - 2480) / 2480 * 100), arrow := "▲",
      color_class := "up", base_date := some "2024-03-14", error := none } := by
  have hsel :
      selectLastTwo ⟨2024, 3, 15⟩
        [(⟨2024, 3, 13⟩, some 2480), (⟨2024, 3, 14⟩, some 2500),
         (⟨2024, 3, 15⟩, some 2600)] =
      [(⟨2024, 3, 13⟩, 2480), (⟨2024, 3, 14⟩, 2500)] := by decide
  simp [fetch_index_summary, hsel, Date.format, pad2, pad4]
  norm_num
  rfl

example :
    fetch_index_summary "X" (.raises "boom") ⟨2024, 3, 15⟩ =
      naSummary "X" "boom" := rfl

example :
    fetch_index_summary "X" (.table true [(⟨2024, 3, 15⟩, some 2500)])
      ⟨2024, 3, 15⟩ = naSummary "X" "not-enough-close-values" := by decide

/- Helper lemmas shared by the claim theorems. -/

instance : Std.Antisymm (fun (a b : String) => a ≤ b) where
  antisymm h h' := le_antisymm h h'

/-- Membership in the selected last-two rows implies membership in the
filtered series. -/
theorem mem_filterBefore_of_mem_selectLastTwo {run_date : Date}
    {rows : List (Date × Option ℚ)} {p : Date × ℚ}
    (hp : p ∈ selectLastTwo run_date rows) :
    p ∈ filterBefore run_date (dropna rows) :=
  List.mem_of_mem_drop hp

/-- Rows surviving the strict date filter are dated before the run date. -/
theorem mem_filterBefore_lt {run_date : Date} {rows : List (Date × ℚ)}
    {p : Date × ℚ} (hp : p ∈ filterBefore run_date rows) : p.1 < run_date := by
  rw [filterBefore] at hp
  have h := List.of_mem_filter hp
  exact h

/-- `dropna` preserves strict date-sortedness of the rows. -/
theorem pairwise_dropna {rows : List (Date × Option ℚ)}
    (h : rows.Pairwise (fun a b => a.1 < b.1)) :
    (dropna rows).Pairwise (fun a b => a.1 < b.1) := by
  induction rows with
  | nil => simp [dropna]
  | cons r rs ih =>
    rw [List.pairwise_cons] at h
    obtain ⟨hr, hrs⟩ := h
    obtain ⟨rd, rv⟩ := r
    rcases rv with _ | c
    · simpa [dropna, List.filterMap_cons] using ih hrs
    · rw [show dropna ((rd, some c) :: rs) = (rd, c) :: dropna rs by
        simp [dropna, List.filterMap_cons]]
      rw [List.pairwise_cons]
      refine ⟨?_, ih hrs⟩
      rintro ⟨qd, qc⟩ hq
      rw [dropna, List.mem_filterMap] at hq
      obtain ⟨⟨ad, av⟩, ha, hfa⟩ := hq
      rcases av with _ | c' <;> simp at hfa
      obtain ⟨rfl, rfl⟩ := hfa
      exact hr _ ha

/-- The selected last-two rows inherit strict date-sortedness. -/
theorem pairwise_selectLastTwo {run_date : Date}
    {rows : List (Date × Option ℚ)}
    (h : rows.Pairwise (fun a b => a.1 < b.1)) :
    (selectLastTwo run_date rows).Pairwise (fun a b => a.1 < b.1) :=
  ((pairwise_dropna h).filter _).drop

/-- C1: no data point dated on or after the run date is ever used as `close`
or `prevClose` — the series is filtered to rows strictly before `run_date`
before the last two points are taken, so every selected point is dated
strictly before the run date; in particular the point whose date becomes
`base_date` is. -/
theorem selected_points_before_run_date (run_date : Date)
    (rows : List (Date × Option ℚ)) :
    (∀ p ∈ selectLastTwo run_date rows, p.1 < run_date) ∧
    (∀ name s,
        (fetch_index_summary name (.table true rows) run_date).base_date =
          some s →
        ∃ d, d < run_date ∧ s = Date.format d) := by
  have hsel : ∀ p ∈ selectLastTwo run_date rows, p.1 < run_date := fun _ hp =>
    mem_filterBefore_lt (mem_filterBefore_of_mem_selectLastTwo hp)
  refine ⟨hsel, ?_⟩
  intro name s hs
  rcases h : selectLastTwo run_date rows with _ | ⟨⟨d0, p0⟩, _ | ⟨⟨d1, c1⟩, _ | ⟨q, rest⟩⟩⟩
  · simp [fetch_index_summary, h, naSummary] at hs
  · simp [fetch_index_summary, h, naSummary] at hs
  · have hmem : (d1, c1) ∈ selectLastTwo run_date rows := by rw [h]; simp
    by_cases hp0 : p0 = 0
    · simp [fetch_index_summary, h, hp0, naSummary] at hs
    · refine ⟨d1, hsel (d1, c1) hmem, ?_⟩
      simp [fetch_index_summary, h, hp0, naSummary] at hs
      exact hs.symm
  · simp [fetch_index_summary, h, naSummary] at hs

/-- Witness for C1: a series containing a row dated exactly on the run date;
the selected later point is dated 2024-03-14, strictly before the run date
2024-03-15. -/
theorem selected_points_before_run_date_witness :
    ((⟨2024, 3, 14⟩, (2500 : ℚ)) ∈
        selectLastTwo ⟨2024, 3, 15⟩
          [(⟨2024, 3, 13⟩, some 2480), (⟨2024, 3, 14⟩, some 2500),
           (⟨2024, 3, 15⟩, some 2600)]) ∧
    (⟨2024, 3, 14⟩ : Date) < ⟨2024, 3, 15⟩ :=
  ⟨by decide,
    (selected_points_before_run_date ⟨2024, 3, 15⟩
        [(⟨2024, 3, 13⟩, some 2480), (⟨2024, 3, 14⟩, some 2500),
         (⟨2024, 3, 15⟩, some 2600)]).1 (⟨2024, 3, 14⟩, (2500 : ℚ))
      (by decide)⟩

/-- C2 (amended): resolution never raises — a data source that raises an
arbitrary exception yields a summary with `close`, `change_pct` and
`base_date` absent, arrow "-", color class "na" (the code's spelling of the
not-available token), and `error` set to the exception's message. -/
theorem raising_source_yields_error_summary (name msg : String)
    (run_date : Date) :
    fetch_index_summary name (.raises msg) run_date =
      { name := name, close := none, change_pct := none, arrow := "-",
        color_class := "na", base_date := none, error := some msg } := rfl

/-- Counterexample to C2 as stated: on a raising data source the summary's
`color_class` is the literal "na", not the literal "not-available". -/
theorem raising_source_color_class_cex :
    (fetch_index_summary "코스피" (.raises "boom") ⟨2024, 3, 15⟩).error =
        some "boom" ∧
    (fetch_index_summary "코스피" (.raises "boom") ⟨2024, 3, 15⟩).color_class =
        "na" ∧
    (fetch_index_summary "코스피" (.raises "boom") ⟨2024, 3, 15⟩).color_class ≠
        "not-available" := by
  refine ⟨rfl, rfl, ?_⟩
  decide

/-- C5: when fewer than two qualifying close points remain after dropping
missing closes and filtering to dates strictly before the run date, the
result is the "not-enough-close-values" summary with all value fields
absent. -/
theorem insufficient_close_points (name : String) (run_date : Date)
    (rows : List (Date × Option ℚ))
    (h : (filterBefore run_date (dropna rows)).length < 2) :
    fetch_index_summary name (.table true rows) run_date =
      { name := name, close := none, change_pct := none, arrow := "-",
        color_class := "na", base_date := none,
        error := some "not-enough-close-values" } := by
  have hlen : (selectLastTwo run_date rows).length < 2 := by
    simp only [selectLastTwo, tail2, List.length_drop]
    omega
  rcases hsel : selectLastTwo run_date rows with _ | ⟨a, _ | ⟨b, rest⟩⟩
  · simp [fetch_index_summary, hsel, naSummary]
  · simp [fetch_index_summary, hsel, naSummary]
  · rw [hsel] at hlen
    simp at hlen
    omega

/-- Witness for C5: an empty series leaves zero qualifying points. -/
theorem insufficient_close_points_witness :
    (filterBefore ⟨2024, 3, 15⟩
        (dropna ([] : List (Date × Option ℚ)))).length < 2 ∧
    fetch_index_summary "코스닥" (.table true []) ⟨2024, 3, 15⟩ =
      { name := "코스닥", close := none, change_pct := none, arrow := "-",
        color_class := "na", base_date := none,
        error := some "not-enough-close-values" } :=
  ⟨by decide, insufficient_close_points "코스닥" ⟨2024, 3, 15⟩ [] (by decide)⟩

/-- C6: a returned series without a closing-price column yields the
"not-enough-data" summary with all value fields absent. -/
theorem missing_close_column (name : String) (run_date : Date)
    (rows : List (Date × Option ℚ)) :
    fetch_index_summary name (.table false rows) run_date =
      { name := name, close := none, change_pct := none, arrow := "-",
        color_class := "na", base_date := none,
        error := some "not-enough-data" } := rfl

/-- C7: every summary produced by `fetch_index_summary` has `close`,
`change_pct` and `base_date` either all present or all absent. -/
theorem value_fields_all_or_none (name : String) (source : FetchResult)
    (run_date : Date) :
    ((fetch_index_summary name source run_date).close ≠ none ∧
     (fetch_index_summary name source run_date).change_pct ≠ none ∧
     (fetch_index_summary name source run_date).base_date ≠ none) ∨
    ((fetch_index_summary name source run_date).close = none ∧
     (fetch_index_summary name source run_date).change_pct = none ∧
     (fetch_index_summary name source run_date).base_date = none) := by
  rcases source with msg | ⟨hasClose, rows⟩
  · right; exact ⟨rfl, rfl, rfl⟩
  · cases hasClose
    · right; exact ⟨rfl, rfl, rfl⟩
    · rcases hsel : selectLastTwo run_date rows with
        _ | ⟨⟨d0, p0⟩, _ | ⟨⟨d1, c1⟩, _ | ⟨q, rest⟩⟩⟩
      · right; simp [fetch_index_summary, hsel, naSummary]
      · right; simp [fetch_index_summary, hsel, naSummary]
      · by_cases hp0 : p0 = 0
        · right; simp [fetch_index_summary, hsel, hp0, naSummary]
        · left; simp [fetch_index_summary, hsel, hp0, naSummary]
      · right; simp [fetch_index_summary, hsel, naSummary]

/-- C3: for every successfully resolved summary, the sign of `change_pct`
determines arrow and color class exactly: positive → "▲"/"up", negative →
"▼"/"down", zero → "-"/"flat". -/
theorem change_sign_matches_classification (name : String)
    (source : FetchResult) (run_date : Date) (v : ℚ)
    (hv : (fetch_index_summary name source run_date).change_pct = some v) :
    ((fetch_index_summary name source run_date).arrow,
      (fetch_index_summary name source run_date).color_class) =
      (if 0 < v then ("▲", "up")
       else if v < 0 then ("▼", "down")
       else ("-", "flat")) := by
  rcases source with msg | ⟨hasClose, rows⟩
  · simp [fetch_index_summary, naSummary] at hv
  · cases hasClose
    · simp [fetch_index_summary, naSummary] at hv
    · rcases hsel : selectLastTwo run_date rows with
        _ | ⟨⟨d0, p0⟩, _ | ⟨⟨d1, c1⟩, _ | ⟨q, rest⟩⟩⟩
      · simp [fetch_index_summary, hsel, naSummary] at hv
      · simp [fetch_index_summary, hsel, naSummary] at hv
      · by_cases hp0 : p0 = 0
        · simp [fetch_index_summary, hsel, hp0, naSummary] at hv
        · have hv' : (c1 - p0) / p0 * 100 = v := by
            simpa [fetch_index_summary, hsel, hp0] using hv
          subst hv'
          simp only [fetch_index_summary, hsel, hp0]
          split_ifs <;> first | rfl | exact ‹False›.elim
      · simp [fetch_index_summary, hsel, naSummary] at hv

/-- Witness for C3: a rising series; the computed change is positive, the
arrow "▲" and the color class "up". -/
theorem change_sign_matches_classification_witness :
    (fetch_index_summary "코스피"
        (.table true [(⟨2024, 3, 13⟩, some 2480), (⟨2024, 3, 14⟩, some 2500)])
        ⟨2024, 3, 15⟩).change_pct = some ((2500 - 2480) / 2480 * 100) ∧
    ((fetch_index_summary "코스피"
        (.table true [(⟨2024, 3, 13⟩, some 2480), (⟨2024, 3, 14⟩, some 2500)])
        ⟨2024, 3, 15⟩).arrow,
      (fetch_index_summary "코스피"
        (.table true [(⟨2024, 3, 13⟩, some 2480), (⟨2024, 3, 14⟩, some 2500)])
        ⟨2024, 3, 15⟩).color_class) =
      (if 0 < ((2500 - 2480 : ℚ) / 2480 * 100) then ("▲", "up")
       else if ((2500 - 2480 : ℚ) / 2480 * 100) < 0 then ("▼", "down")
       else ("-", "flat")) := by
  have hsel :
      selectLastTwo ⟨2024, 3, 15⟩
        [(⟨2024, 3, 13⟩, some 2480), (⟨2024, 3, 14⟩, some 2500)] =
      [(⟨2024, 3, 13⟩, 2480), (⟨2024, 3, 14⟩, 2500)] := by decide
  have hp0 : (2480 : ℚ) ≠ 0 := by norm_num
  have hv :
      (fetch_index_summary "코스피"
        (.table true [(⟨2024, 3, 13⟩, some 2480), (⟨2024, 3, 14⟩, some 2500)])
        ⟨2024, 3, 15⟩).change_pct = some ((2500 - 2480) / 2480 * 100) := by
    simp [fetch_index_summary, hsel, hp0]
  exact ⟨hv, change_sign_matches_classification _ _ _ _ hv⟩

/-- C4 (amended): when at least two qualifying close points remain and the
earlier of the two selected closes is nonzero, the resolver takes the last
two remaining points (the selected pair is the final suffix of the filtered
series, and with date-sorted provider rows the first is dated earlier), sets
`prev_close` to the earlier and `close` to the later, computes
`change_pct = (close - prev_close) / prev_close * 100`, and reports the later
point's date formatted YYYY-MM-DD as `base_date`.  When the earlier close is
zero the resolution instead lands in the caught-division-failure summary
(claim C10), which is what forces the nonzero amendment. -/
theorem last_two_resolution (name : String) (run_date : Date)
    (rows : List (Date × Option ℚ)) (d0 d1 : Date) (p c : ℚ)
    (hrows : rows.Pairwise (fun a b => a.1 < b.1))
    (hsel : selectLastTwo run_date rows = [(d0, p), (d1, c)])
    (hp : p ≠ 0) :
    filterBefore run_date (dropna rows) =
      (filterBefore run_date (dropna rows)).take
        ((filterBefore run_date (dropna rows)).length - 2) ++ [(d0, p), (d1, c)] ∧
    d0 < d1 ∧
    (fetch_index_summary name (.table true rows) run_date).close = some c ∧
    (fetch_index_summary name (.table true rows) run_date).change_pct =
      some ((c - p) / p * 100) ∧
    (fetch_index_summary name (.table true rows) run_date).base_date =
      some (Date.format d1) := by
  have hpair : (selectLastTwo run_date rows).Pairwise (fun a b => a.1 < b.1) :=
    pairwise_selectLastTwo hrows
  rw [hsel] at hpair
  have hd : d0 < d1 := by
    rw [List.pairwise_cons] at hpair
    exact hpair.1 (d1, c) (by simp)
  have hsplit : filterBefore run_date (dropna rows) =
      (filterBefore run_date (dropna rows)).take
        ((filterBefore run_date (dropna rows)).length - 2) ++ [(d0, p), (d1, c)] := by
    conv_lhs => rw [← List.take_append_drop
      ((filterBefore run_date (dropna rows)).length - 2)
      (filterBefore run_date (dropna rows))]
    rw [show (filterBefore run_date (dropna rows)).drop
        ((filterBefore run_date (dropna rows)).length - 2) = [(d0, p), (d1, c)]
      from hsel]
  refine ⟨hsplit, hd, ?_, ?_, ?_⟩ <;> simp [fetch_index_summary, hsel, hp]

/-- Counterexample to C4 as stated: a series whose two qualifying closes are
0 then 5 — at least two points remain, yet no `close` is resolved (the
division failure path is taken instead). -/
theorem last_two_resolution_cex :
    2 ≤ (filterBefore ⟨2024, 3, 15⟩
          (dropna [(⟨2024, 3, 13⟩, some 0), (⟨2024, 3, 14⟩, some 5)])).length ∧
    (fetch_index_summary "코스피"
        (.table true [(⟨2024, 3, 13⟩, some 0), (⟨2024, 3, 14⟩, some 5)])
        ⟨2024, 3, 15⟩).close = none := by
  constructor
  · decide
  · decide

/-- Witness for C4: the 2480 → 2500 series before run date 2024-03-15. -/
theorem last_two_resolution_witness :
    ([(⟨2024, 3, 13⟩, some 2480), (⟨2024, 3, 14⟩, some 2500)] :
        List (Date × Option ℚ)).Pairwise (fun a b => a.1 < b.1) ∧
    selectLastTwo ⟨2024, 3, 15⟩
        [(⟨2024, 3, 13⟩, some 2480), (⟨2024, 3, 14⟩, some 2500)] =
      [(⟨2024, 3, 13⟩, 2480), (⟨2024, 3, 14⟩, 2500)] ∧
    (2480 : ℚ) ≠ 0 ∧
    ((fetch_index_summary "코스피"
        (.table true [(⟨2024, 3, 13⟩, some 2480), (⟨2024, 3, 14⟩, some 2500)])
        ⟨2024, 3, 15⟩).close = some 2500 ∧
      (fetch_index_summary "코스피"
        (.table true [(⟨2024, 3, 13⟩, some 2480), (⟨2024, 3, 14⟩, some 2500)])
        ⟨2024, 3, 15⟩).change_pct = some ((2500 - 2480) / 2480 * 100) ∧
      (fetch_index_summary "코스피"
        (.table true [(⟨2024, 3, 13⟩, some 2480), (⟨2024, 3, 14⟩, some 2500)])
        ⟨2024, 3, 15⟩).base_date = some (Date.format ⟨2024, 3, 14⟩)) := by
  refine ⟨by decide, by decide, by norm_num, ?_⟩
  have h := last_two_resolution "코스피" ⟨2024, 3, 15⟩
    [(⟨2024, 3, 13⟩, some 2480), (⟨2024, 3, 14⟩, some 2500)]
    ⟨2024, 3, 13⟩ ⟨2024, 3, 14⟩ 2480 2500
    (by decide) (by decide) (by norm_num)
  exact ⟨h.2.2.1, h.2.2.2.1, h.2.2.2.2⟩

/-- C10: when the earlier selected close is zero, the division failure
(Python's `ZeroDivisionError`) is absorbed by the blanket handler: the
summary has all value fields absent and `error` set, like any other
provider-level failure. -/
theorem zero_prev_close_caught (name : String) (run_date : Date)
    (rows : List (Date × Option ℚ)) (d0 d1 : Date) (c : ℚ)
    (hsel : selectLastTwo run_date rows = [(d0, 0), (d1, c)]) :
    fetch_index_summary name (.table true rows) run_date =
      { name := name, close := none, change_pct := none, arrow := "-",
        color_class := "na", base_date := none,
        error := some "float division by zero" } := by
  simp [fetch_index_summary, hsel, naSummary]

/-- Witness for C10: a concrete series whose earlier selected close is 0. -/
theorem zero_prev_close_caught_witness :
    selectLastTwo ⟨2024, 3, 12⟩
        [(⟨2024, 3, 10⟩, some 0), (⟨2024, 3, 11⟩, some 7)] =
      [(⟨2024, 3, 10⟩, 0), (⟨2024, 3, 11⟩, 7)] ∧
    fetch_index_summary "니케이225"
        (.table true [(⟨2024, 3, 10⟩, some 0), (⟨2024, 3, 11⟩, some 7)])
        ⟨2024, 3, 12⟩ =
      { name := "니케이225", close := none, change_pct := none, arrow := "-",
        color_class := "na", base_date := none,
        error := some "float division by zero" } :=
  ⟨by decide,
    zero_prev_close_caught "니케이225" ⟨2024, 3, 12⟩
      [(⟨2024, 3, 10⟩, some 0), (⟨2024, 3, 11⟩, some 7)]
      ⟨2024, 3, 10⟩ ⟨2024, 3, 11⟩ 7 (by decide)⟩

/-- A member that bounds every element of a list of strings is its `max?`. -/
theorem max?_eq_of_ub {l : List String} {m : String} (hm : m ∈ l)
    (hub : ∀ b ∈ l, b ≤ m) : l.max? = some m := by
  rcases h : l.max? with _ | a
  · rw [List.max?_eq_none_iff] at h
    subst h
    cases hm
  · rw [List.max?_eq_some_iff (fun a => le_refl a) (fun a b => max_choice a b)
      (fun a b c => max_le_iff)] at h
    obtain ⟨ha, hle⟩ := h
    have ham : a = m := le_antisymm (hub a ha) (hle m hm)
    rw [ham]

/-- C8: the as-of trading date `render_html` interpolates after the
"기준 거래일: " label is `base_date_text`, which equals the lexicographically
maximum `base_date` among all items (domestic and overseas) that have one
(Python truthiness: present and nonempty), and is the placeholder
"확인 불가" when no item has one. -/
theorem as_of_date_is_lex_max (domestic overseas : List IndexSummary)
    (generated_at : String) (requested_target_date : Option String) :
    (∃ pre post,
        render_html domestic overseas generated_at requested_target_date =
          pre ++ ("기준 거래일: " ++ base_date_text (domestic ++ overseas)) ++
            post) ∧
    (∀ m ∈ base_date_list (domestic ++ overseas),
        (∀ b ∈ base_date_list (domestic ++ overseas), b ≤ m) →
        base_date_text (domestic ++ overseas) = m) ∧
    (base_date_list (domestic ++ overseas) = [] →
        base_date_text (domestic ++ overseas) = "확인 불가") := by
  refine ⟨?_, ?_, ?_⟩
  · refine ⟨htmlChunk1 ++ _render_section "국내" domestic 2 ++ htmlChunk2 ++
      _render_section "해외" overseas 2 ++ htmlChunk3 ++
      request_date_text requested_target_date ++ "</p>\n    <p class=\"meta\">",
      htmlChunk5 ++ generated_at ++ htmlChunk6 ++
      warning_text (domestic ++ overseas) ++ htmlChunk7, ?_⟩
    simp only [render_html]
    rw [show htmlChunk4 = "</p>\n    <p class=\"meta\">" ++ "기준 거래일: "
      from rfl]
    simp only [String.append_assoc]
  · intro m hm hub
    simp [base_date_text, max?_eq_of_ub hm hub]
  · intro h
    simp [base_date_text, h]

/-- Witness for C8: two items whose base dates are 2024-03-14 and 2024-03-13;
the as-of text is their lexicographic maximum. -/
theorem as_of_date_is_lex_max_witness :
    ("2024-03-14" ∈ base_date_list ([sampleUp] ++ [sampleDown])) ∧
    base_date_text ([sampleUp] ++ [sampleDown]) = "2024-03-14" := by
  refine ⟨by decide, ?_⟩
  refine (as_of_date_is_lex_max [sampleUp] [sampleDown] "2024-03-15 08:00"
    none).2.1 "2024-03-14" (by decide) ?_
  have hl : base_date_list ([sampleUp] ++ [sampleDown]) =
      ["2024-03-14", "2024-03-13"] := by decide
  rw [hl]
  intro b hb
  fin_cases hb <;> exact String.le_iff_toList_le.mpr (by decide)

/-- C9: `render_html` is deterministic and pure — equal inputs yield
byte-identical documents — and total: the output is always a complete
document, decomposing as "<!doctype html>" … "</html>" followed by the final
newline. -/
theorem render_html_deterministic_and_complete
    (dom1 dom2 ov1 ov2 : List IndexSummary) (g1 g2 : String)
    (r1 r2 : Option String)
    (hdom : dom1 = dom2) (hov : ov1 = ov2) (hg : g1 = g2) (hr : r1 = r2) :
    render_html dom1 ov1 g1 r1 = render_html dom2 ov2 g2 r2 ∧
    ∃ mid, render_html dom1 ov1 g1 r1 =
      "<!doctype html>" ++ mid ++ "</html>\n" := by
  subst hdom; subst hov; subst hg; subst hr
  refine ⟨rfl, ⟨("\n" ++ htmlChunk1Body) ++ _render_section "국내" dom1 2 ++
      htmlChunk2 ++ _render_section "해외" ov1 2 ++ htmlChunk3 ++
      request_date_text r1 ++ htmlChunk4 ++ base_date_text (dom1 ++ ov1) ++
      htmlChunk5 ++ g1 ++ htmlChunk6 ++ warning_text (dom1 ++ ov1) ++
      "\n  </body>\n", ?_⟩⟩
  simp only [render_html]
  rw [show htmlChunk1 = "<!doctype html>" ++ ("\n" ++ htmlChunk1Body)
      from rfl,
    show htmlChunk7 = "\n  </body>\n" ++ "</html>\n" from rfl]
  simp only [String.append_assoc]

/-- Witness for C9: applying the determinism-and-completeness theorem at a
concrete pair of equal inputs. -/
theorem render_html_deterministic_and_complete_witness :
    render_html [] [] "2024-03-15 08:00" none =
      render_html [] [] "2024-03-15 08:00" none ∧
    ∃ mid, render_html [] [] "2024-03-15 08:00" none =
      "<!doctype html>" ++ mid ++ "</html>\n" :=
  render_html_deterministic_and_complete [] [] [] [] "2024-03-15 08:00"
    "2024-03-15 08:00" none none rfl rfl rfl rfl

end DailyBriefing
